import Mathlib

/-!
Shallow embedding of `app.py` (single-file Flask backend): the
`/api/process_notes` POST handler, its error classification and
failed-prompt persistence, and the static-asset fallback route.
External effects are made explicit: the provider call is an input
(`ProviderOutcome`), `json.loads` is a parameter `jsonLoads` (the handler
only ever applies it to the provider text), file-system writes are
returned as records, and the write success of `open(...).write` is a
Boolean input `writeOk`.
-/

/-- JSON values as produced by Python's `json.loads`.  Numbers are
modelled as integers only; no claim involves numeric payloads. -/
inductive Json where
  | null : Json
  | bool (b : Bool) : Json
  | num (n : Int) : Json
  | str (s : String) : Json
  | arr (xs : List Json) : Json
  | obj (kvs : List (String × Json)) : Json

/-- Python truthiness of a parsed-JSON value, used by `request.get_json() or {}`
(app.py line 31). -/
def jsonTruthy : Json → Bool
  | Json.null => false
  | Json.bool b => b
  | Json.num n => n != 0
  | Json.str s => s != ""
  | Json.arr xs => !xs.isEmpty
  | Json.obj kvs => !kvs.isEmpty

/-- First-match association-list lookup; `Json.obj` lists stand for Python
dicts, whose keys are unique. -/
def lookupKey : List (String × Json) → String → Option Json
  | [], _ => none
  | (k, v) :: rest, key => if k = key then some v else lookupKey rest key

/-- Python `dict.get(key, default)` (app.py lines 32-34): the stored value
when the key is present — even when that value is `None` — else the default. -/
def dictGet (data : List (String × Json)) (key : String) (dflt : Json) : Json :=
  match lookupKey data key with
  | some v => v
  | none => dflt

/-- The `data = request.get_json() or {}` step (app.py line 31): a falsy body
(JSON `null`, `{}`, `[]`, `""`, `0`, `false`) is replaced by the empty dict;
a truthy non-dict body makes the subsequent `.get` raise `AttributeError`
(modelled as `none`). -/
def getData : Json → Option (List (String × Json))
  | body =>
    if jsonTruthy body then
      match body with
      | Json.obj kvs => some kvs
      | _ => none
    else
      some []

mutual

/-- Python `repr` on parsed-JSON values (quote escaping inside strings is
elided; no claim exercises it).  The single-quote character is built from
its code point. -/
def pyRepr : Json → String
  | Json.null => "None"
  | Json.bool true => "True"
  | Json.bool false => "False"
  | Json.num n => toString n
  | Json.str s => String.singleton (Char.ofNat 39) ++ s ++ String.singleton (Char.ofNat 39)
  | Json.arr xs => "[" ++ pyReprItems xs ++ "]"
  | Json.obj kvs => "\x7b" ++ pyReprPairs kvs ++ "\x7d"

/-- Comma-separated `repr`s of list items. -/
def pyReprItems : List Json → String
  | [] => ""
  | [x] => pyRepr x
  | x :: rest => pyRepr x ++ ", " ++ pyReprItems rest

/-- Comma-separated `repr`s of dict entries. -/
def pyReprPairs : List (String × Json) → String
  | [] => ""
  | [(k, v)] => String.singleton (Char.ofNat 39) ++ k ++ String.singleton (Char.ofNat 39) ++ ": " ++ pyRepr v
  | (k, v) :: rest =>
    String.singleton (Char.ofNat 39) ++ k ++ String.singleton (Char.ofNat 39) ++ ": " ++ pyRepr v ++ ", " ++ pyReprPairs rest

end

/-- Python `str` on parsed-JSON values, as applied by f-string interpolation
(app.py lines 65-68): a string interpolates as itself, anything else as its
`repr` (`None` becomes `"None"`, `True` becomes `"True"`, ...). -/
def pythonStr : Json → String
  | Json.str s => s
  | j => pyRepr j

/-- ASCII whitespace stripped by Python `str.strip()` (other Unicode
whitespace is not modelled; no claim exercises it). -/
def isPySpace (c : Char) : Bool :=
  c = ' ' || c = '\t' || c = '\n' || c = '\r' || c = '\x0b' || c = '\x0c'

/-- Python `str.strip()` (app.py line 87): drop leading and trailing
whitespace. -/
def pyStrip (s : String) : String :=
  String.mk (((s.data.dropWhile isPySpace).reverse.dropWhile isPySpace).reverse)

/-- Python substring containment, `needle in hay` (app.py line 112). -/
def strContains (hay needle : String) : Bool :=
  (List.range (hay.data.length + 1)).any fun i => needle.data.isPrefixOf (hay.data.drop i)

/-- Python `str.lower()` (app.py line 111), ASCII case folding. -/
def pyLower (s : String) : String :=
  String.mk (s.data.map Char.toLower)

/-- Prompt template text preceding the interpolated `topic` (app.py
lines 36-65), transcribed from the f-string with `\x7b\x7b`/`\x7d\x7d` escapes
resolved to single braces and trailing spaces preserved. -/
def promptHeader : String :=
  "\n    You are a note-taking assistant. The user provides shorthand notes that may be incomplete,\n"
  ++ "    incoherent, or contain symbols. Your job is to expand them into clear notes and return \n"
  ++ "    structured JSON with additional extracted information.\n"
  ++ "\n"
  ++ "    Tones may include: Class Lecture, Formal Meeting, Informal Meeting, Scientific Talk, \n"
  ++ "    Business Plan, Travel Plan.\n"
  ++ "\n"
  ++ "    Rules:\n"
  ++ "    1. Stay faithful to the provided notes, topic, and tone. Do not hallucinate new content.\n"
  ++ "    2. Expand shorthand into clear, plain text notes in the given tone.\n"
  ++ "    3. The \"expandedNotes\" field must be a single string, but preserve line breaks (`\\n`) \n"
  ++ "       and allow simple bullet points using a hyphen (`-`).\n"
  ++ "    4. If shorthand or unclear phrases cannot be expanded, keep them as is or mark with [NEEDS CLARIFICATION].\n"
  ++ "    5. If the notes contain \"??\", provide a concise textbook-level explanation and record it under \"explain\".\n"
  ++ "    6. If notes contain multiple asterisks (** or ****), treat as important and record under \"important\".\n"
  ++ "    7. Identify and record tasks, reminders, or actionable items under \"tasks\".\n"
  ++ "    8. Identify and record meeting-related information (schedule, setup, follow-up) under \"meeting\".\n"
  ++ "    9. Output must be valid JSON only, no extra text, no Markdown, no explanations.\n"
  ++ "\n"
  ++ "    JSON Schema (must follow exactly):\n"
  ++ "    \x7b\n"
  ++ "      \"expandedNotes\": \"string (multiline, with \\n and - for bullets)\",\n"
  ++ "      \"important\": [\"list of important points\"],\n"
  ++ "      \"explain\": [\"list of misunderstood/?? terms with explanation\"],\n"
  ++ "      \"tasks\": [\"list of tasks/reminders\"],\n"
  ++ "      \"meeting\": [\"list of meeting-related info\"]\n"
  ++ "    \x7d\n"
  ++ "\n"
  ++ "    Topic: "

/-- The full prompt f-string (app.py lines 36-69) with the three
interpolated values already rendered to strings. -/
def buildPrompt (topic tone notes : String) : String :=
  promptHeader ++ topic ++ "\n    Tone: " ++ tone
    ++ "\n    Scribbled Notes:\n    " ++ notes ++ "\n    "

/-- The prompt built by the handler from the request dict: fields read with
`data.get` defaults `""`/`""`/`"General"` (app.py lines 32-34) and rendered
by f-string interpolation. -/
def promptFor (data : List (String × Json)) : String :=
  buildPrompt (pythonStr (dictGet data "topic" (Json.str "")))
    (pythonStr (dictGet data "tone" (Json.str "General")))
    (pythonStr (dictGet data "notes" (Json.str "")))

/-- Outcome of the `client.models.generate_content` call (app.py lines
72-79): either it returns and `response.text` is a string, or it raises
and `str(e)` is the error message. -/
inductive ProviderOutcome where
  | success (text : String) : ProviderOutcome
  | failure (errMsg : String) : ProviderOutcome

/-- A completed file write: directory, file name, content. -/
structure FileWrite where
  dir : String
  filename : String
  content : String

/-- A UTC wall-clock instant as read by `datetime.utcnow()`. -/
structure UtcTime where
  year : Nat
  month : Nat
  day : Nat
  hour : Nat
  minute : Nat
  second : Nat

/-- Zero-padding to two digits, as `%m`, `%d`, `%H`, `%M`, `%S` produce. -/
def pad2 (n : Nat) : String :=
  if n < 10 then "0" ++ toString n else toString n

/-- Zero-padding to four digits, as `%Y` produces. -/
def pad4 (n : Nat) : String :=
  if n < 10 then "000" ++ toString n
  else if n < 100 then "00" ++ toString n
  else if n < 1000 then "0" ++ toString n
  else toString n

/-- `datetime.utcnow().strftime("%Y%m%dT%H%M%SZ")` (app.py line 101). -/
def strftimeTs (t : UtcTime) : String :=
  pad4 t.year ++ pad2 t.month ++ pad2 t.day ++ "T"
    ++ pad2 t.hour ++ pad2 t.minute ++ pad2 t.second ++ "Z"

/-- `os.path.join` for the simple relative components this program joins. -/
def joinPath (a b : String) : String := a ++ "/" ++ b

/-- `FAILED_PROMPTS_DIR = os.path.join(os.path.dirname(__file__), "failed_prompts")`
(app.py line 16), parameterized by the directory containing the script. -/
def FAILED_PROMPTS_DIR (appDir : String) : String :=
  joinPath appDir "failed_prompts"

/-- `save_failed_prompt` (app.py lines 99-108): writes the prompt text to
`failed_prompt_<timestamp>.txt` under `FAILED_PROMPTS_DIR`; a failing
`open`/`write` (`writeOk = false`) is swallowed by the inner `except`, so no
file appears and no exception escapes. -/
def save_failed_prompt (appDir : String) (now : UtcTime) (writeOk : Bool)
    (promptText : String) : List FileWrite :=
  if writeOk then
    [⟨FAILED_PROMPTS_DIR appDir, "failed_prompt_" ++ strftimeTs now ++ ".txt", promptText⟩]
  else
    []

/-- `"503" in err_text or "unavailable" in lowered or "model is overloaded" in lowered`
(app.py lines 110-112). -/
def isTransientError (errMsg : String) : Bool :=
  strContains errMsg "503" || strContains (pyLower errMsg) "unavailable"
    || strContains (pyLower errMsg) "model is overloaded"

/-- The fallback body built when `json.loads(response.text)` raises
(app.py lines 84-92). -/
def fallbackBody (text : String) : Json :=
  Json.obj [("expandedNotes", Json.str (pyStrip text)),
    ("important", Json.arr []),
    ("explain", Json.arr []),
    ("tasks", Json.arr []),
    ("meeting", Json.arr [])]

/-- An HTTP response: status code and JSON body (`jsonify` yields 200
unless a code is attached). -/
structure HttpResponse where
  status : Nat
  body : Json

/-- Result of one run of the handler: a response together with the list of
files written, or an exception escaping the handler (e.g. `AttributeError`
from `.get` on a non-dict body). -/
inductive HandlerResult where
  | response (resp : HttpResponse) (writes : List FileWrite) : HandlerResult
  | unhandledError : HandlerResult

/-- The `process_notes` handler (app.py lines 29-119).  `jsonLoads` stands
for Python's `json.loads`, applied only to the provider text: `some` models
a successful parse, `none` a raised exception.  `provider` is the outcome
of the `generate_content` call, `writeOk` whether the diagnostic file write
would succeed, `now` the instant read by `datetime.utcnow()`. -/
def process_notes (jsonLoads : String → Option Json) (appDir : String)
    (reqBody : Json) (provider : ProviderOutcome) (writeOk : Bool)
    (now : UtcTime) : HandlerResult :=
  match getData reqBody with
  | none => HandlerResult.unhandledError
  | some data =>
    let prompt := promptFor data
    match provider with
    | ProviderOutcome.success text =>
      let parsed :=
        match jsonLoads text with
        | some j => j
        | none => fallbackBody text
      HandlerResult.response ⟨200, parsed⟩ []
    | ProviderOutcome.failure errMsg =>
      if isTransientError errMsg then
        HandlerResult.response
          ⟨503, Json.obj [("error", Json.str "The AI model is not available. Please try again later.")]⟩
          (save_failed_prompt appDir now writeOk prompt)
      else
        HandlerResult.response ⟨500, Json.obj [("error", Json.str errMsg)]⟩ []

/-- Result of the static-asset fallback route: a file served from a
directory, or a JSON status response. -/
inductive StaticResult where
  | sendFile (dir fname : String) : StaticResult
  | jsonStatus (resp : HttpResponse) : StaticResult

/-- The `serve_react` route (app.py lines 123-132), parameterized by
`fsExists` standing for `os.path.exists`. -/
def serve_react (fsExists : String → Bool) (buildDir path : String) : StaticResult :=
  if (path != "") && fsExists (joinPath buildDir path) then
    StaticResult.sendFile buildDir path
  else if fsExists (joinPath buildDir "index.html") then
    StaticResult.sendFile buildDir "index.html"
  else
    StaticResult.jsonStatus ⟨200, Json.obj [("status", Json.str "Backend running. Frontend build not found.")]⟩

/-- Decidable check of the NoteResponse shape on a JSON value. -/
def isStringJson : Json → Bool
  | Json.str _ => true
  | _ => false

/-- A JSON array whose elements are all strings. -/
def isStringList : Json → Bool
  | Json.arr xs => xs.all isStringJson
  | _ => false

/-- The named key is present and holds a list of strings. -/
def strListField (kvs : List (String × Json)) (key : String) : Bool :=
  match lookupKey kvs key with
  | some v => isStringList v
  | none => false

/-- NoteResponse shape (spec section 3): an object whose `expandedNotes` is
a string and whose `important`, `explain`, `tasks`, `meeting` are lists of
strings. -/
def isNoteResponseShape : Json → Bool
  | Json.obj kvs =>
    (match lookupKey kvs "expandedNotes" with
     | some v => isStringJson v
     | none => false)
    && strListField kvs "important" && strListField kvs "explain"
    && strListField kvs "tasks" && strListField kvs "meeting"
  | _ => false

/-- A fixed test instant for concrete witnesses. -/
def t0 : UtcTime := ⟨2025, 10, 12, 3, 4, 5⟩

/-- Provider text used in witnesses that exercise the non-JSON fallback
(spec section 8 example); Python `json.loads` raises on it. -/
def sureText : String := "Sure, here are your notes expanded."

/-- A provider text that is valid JSON in the declared NoteResponse shape. -/
def goodText : String :=
  "\x7b\"expandedNotes\": \"ok\", \"important\": [], \"explain\": [], \"tasks\": [], \"meeting\": []\x7d"

/-- The value Python `json.loads` produces from `goodText`. -/
def goodNote : Json :=
  Json.obj [("expandedNotes", Json.str "ok"),
    ("important", Json.arr []),
    ("explain", Json.arr []),
    ("tasks", Json.arr []),
    ("meeting", Json.arr [])]

/-- Concrete stand-in for Python `json.loads` used by witnesses: it agrees
with `json.loads` on every text a witness feeds the handler — `"[]"`
parses to the empty array, `goodText` to `goodNote`, and the non-JSON
`sureText` raises (`none`). -/
def loadsStub : String → Option Json := fun s =>
  if s = "[]" then some (Json.arr [])
  else if s = goodText then some goodNote
  else none

/-- Claim C2: an exception from the provider call is classified transient
exactly when the stringified error contains `"503"`, or contains
`"unavailable"` or `"model is overloaded"` case-insensitively; a transient
error yields HTTP 503 with the fixed unavailability body, any other error
yields HTTP 500 with the raw error string as the `error` field and writes
no failed-prompt file. -/
theorem claim_C2 (jsonLoads : String → Option Json) (appDir : String)
    (reqBody : Json) (data : List (String × Json)) (errMsg : String)
    (writeOk : Bool) (now : UtcTime)
    (hdata : getData reqBody = some data) :
    isTransientError errMsg =
      (strContains errMsg "503" || strContains (pyLower errMsg) "unavailable"
        || strContains (pyLower errMsg) "model is overloaded") ∧
    (isTransientError errMsg = true →
      process_notes jsonLoads appDir reqBody (ProviderOutcome.failure errMsg) writeOk now =
        HandlerResult.response
          ⟨503, Json.obj [("error", Json.str "The AI model is not available. Please try again later.")]⟩
          (save_failed_prompt appDir now writeOk (promptFor data))) ∧
    (isTransientError errMsg = false →
      process_notes jsonLoads appDir reqBody (ProviderOutcome.failure errMsg) writeOk now =
        HandlerResult.response ⟨500, Json.obj [("error", Json.str errMsg)]⟩ []) := by
  refine ⟨rfl, ?_, ?_⟩ <;> intro h <;> simp [process_notes, hdata, h]

/-- Witness for C2 at the spec's own example: the message
`"invalid api key"` matches no marker, so the response is HTTP 500 with the
raw string and no file write. -/
theorem claim_C2_witness :
    process_notes loadsStub "/app" (Json.obj []) (ProviderOutcome.failure "invalid api key") true t0 =
      HandlerResult.response ⟨500, Json.obj [("error", Json.str "invalid api key")]⟩ [] :=
  (claim_C2 loadsStub "/app" (Json.obj []) [] "invalid api key" true t0 rfl).2.2 (by decide)

/-- Claim C3: when the provider text fails to parse as JSON, the handler
returns HTTP 200 whose body wraps the whitespace-stripped raw text in
`expandedNotes` with all four list fields empty — never an error response. -/
theorem claim_C3 (jsonLoads : String → Option Json) (appDir : String)
    (reqBody : Json) (data : List (String × Json)) (text : String)
    (writeOk : Bool) (now : UtcTime)
    (hdata : getData reqBody = some data)
    (hparse : jsonLoads text = none) :
    process_notes jsonLoads appDir reqBody (ProviderOutcome.success text) writeOk now =
      HandlerResult.response
        ⟨200, Json.obj [("expandedNotes", Json.str (pyStrip text)),
          ("important", Json.arr []), ("explain", Json.arr []),
          ("tasks", Json.arr []), ("meeting", Json.arr [])]⟩ [] := by
  simp [process_notes, fallbackBody, hdata, hparse]

/-- Witness for C3 at the spec's example text, which `json.loads` rejects. -/
theorem claim_C3_witness :
    loadsStub sureText = none ∧
    process_notes loadsStub "/app" (Json.obj []) (ProviderOutcome.success sureText) true t0 =
      HandlerResult.response
        ⟨200, Json.obj [("expandedNotes", Json.str (pyStrip sureText)),
          ("important", Json.arr []), ("explain", Json.arr []),
          ("tasks", Json.arr []), ("meeting", Json.arr [])]⟩ [] :=
  ⟨rfl, claim_C3 loadsStub "/app" (Json.obj []) [] sureText true t0 rfl rfl⟩

/-- Claim C4: a transient provider error makes the handler attempt to write
exactly the prompt it sent to `failed_prompt_<YYYYMMDDTHHMMSSZ>.txt` in the
failed-prompts directory, and the HTTP 503 response with the fixed message
is returned whether or not that write succeeds (a failed write leaves no
file and is swallowed). -/
theorem claim_C4 (jsonLoads : String → Option Json) (appDir : String)
    (reqBody : Json) (data : List (String × Json)) (errMsg : String)
    (writeOk : Bool) (now : UtcTime)
    (hdata : getData reqBody = some data)
    (htrans : isTransientError errMsg = true) :
    process_notes jsonLoads appDir reqBody (ProviderOutcome.failure errMsg) writeOk now =
      HandlerResult.response
        ⟨503, Json.obj [("error", Json.str "The AI model is not available. Please try again later.")]⟩
        (if writeOk then
          [⟨FAILED_PROMPTS_DIR appDir, "failed_prompt_" ++ strftimeTs now ++ ".txt", promptFor data⟩]
         else []) := by
  simp [process_notes, save_failed_prompt, hdata, htrans]

/-- Witness for C4: the overload marker matches case-insensitively and the
write record carries the full prompt under the timestamped name. -/
theorem claim_C4_witness :
    isTransientError "The MODEL IS OVERLOADED; retry" = true ∧
    process_notes loadsStub "/app" (Json.obj []) (ProviderOutcome.failure "The MODEL IS OVERLOADED; retry") true t0 =
      HandlerResult.response
        ⟨503, Json.obj [("error", Json.str "The AI model is not available. Please try again later.")]⟩
        [⟨FAILED_PROMPTS_DIR "/app", "failed_prompt_" ++ strftimeTs t0 ++ ".txt", promptFor []⟩] :=
  ⟨by decide,
    claim_C4 loadsStub "/app" (Json.obj []) [] "The MODEL IS OVERLOADED; retry" true t0 rfl (by decide)⟩

/-- Counterexample to claim C1 as stated: `json.loads` accepts `"[]"`, so
the handler returns HTTP 200 whose body is the empty JSON array, which does
not match the NoteResponse shape. -/
theorem claim_C1_counterexample :
    process_notes loadsStub "/app" (Json.obj []) (ProviderOutcome.success "[]") true t0 =
      HandlerResult.response ⟨200, Json.arr []⟩ [] ∧
    isNoteResponseShape (Json.arr []) = false :=
  ⟨rfl, rfl⟩

/-- Claim C1 (amended): when the provider call succeeds the handler always
returns HTTP 200 with no file writes; the body matches the NoteResponse
shape whenever the provider text fails to parse as JSON (the fallback), but
parsed JSON passes through with no shape guarantee. -/
theorem claim_C1 (jsonLoads : String → Option Json) (appDir : String)
    (reqBody : Json) (data : List (String × Json)) (text : String)
    (writeOk : Bool) (now : UtcTime)
    (hdata : getData reqBody = some data) :
    (∃ b, process_notes jsonLoads appDir reqBody (ProviderOutcome.success text) writeOk now =
      HandlerResult.response ⟨200, b⟩ []) ∧
    (jsonLoads text = none →
      process_notes jsonLoads appDir reqBody (ProviderOutcome.success text) writeOk now =
        HandlerResult.response ⟨200, fallbackBody text⟩ [] ∧
      isNoteResponseShape (fallbackBody text) = true) := by
  constructor
  · cases h : jsonLoads text with
    | none => exact ⟨fallbackBody text, by simp [process_notes, hdata, h]⟩
    | some j => exact ⟨j, by simp [process_notes, hdata, h]⟩
  · intro h
    refine ⟨by simp [process_notes, hdata, h], ?_⟩
    simp [isNoteResponseShape, fallbackBody, lookupKey, strListField, isStringList, isStringJson]

/-- Witness for the amended C1 at a non-JSON provider text. -/
theorem claim_C1_witness :
    getData (Json.obj []) = some [] ∧
    ((∃ b, process_notes loadsStub "/app" (Json.obj []) (ProviderOutcome.success sureText) true t0 =
        HandlerResult.response ⟨200, b⟩ []) ∧
      (loadsStub sureText = none →
        process_notes loadsStub "/app" (Json.obj []) (ProviderOutcome.success sureText) true t0 =
          HandlerResult.response ⟨200, fallbackBody sureText⟩ [] ∧
        isNoteResponseShape (fallbackBody sureText) = true)) :=
  ⟨rfl, claim_C1 loadsStub "/app" (Json.obj []) [] sureText true t0 rfl⟩

/-- Claim C5: with `topic`, `notes` and `tone` all absent from the request
dict, the prompt is built from the defaults `""`, `""`, `"General"`, and a
well-behaved provider (shape-valid JSON text) still yields HTTP 200 with a
well-shaped body. -/
theorem claim_C5 (jsonLoads : String → Option Json) (appDir : String)
    (kvs : List (String × Json)) (text : String) (j : Json)
    (writeOk : Bool) (now : UtcTime)
    (htopic : lookupKey kvs "topic" = none)
    (hnotes : lookupKey kvs "notes" = none)
    (htone : lookupKey kvs "tone" = none)
    (hparse : jsonLoads text = some j)
    (hshape : isNoteResponseShape j = true) :
    promptFor kvs = buildPrompt "" "General" "" ∧
    process_notes jsonLoads appDir (Json.obj kvs) (ProviderOutcome.success text) writeOk now =
      HandlerResult.response ⟨200, j⟩ [] ∧
    isNoteResponseShape j = true := by
  refine ⟨?_, ?_, hshape⟩
  · simp [promptFor, dictGet, htopic, hnotes, htone, pythonStr]
  · cases kvs <;> simp [process_notes, getData, jsonTruthy, hparse]

/-- Witness for C5: the empty request body with a shape-valid provider
text. -/
theorem claim_C5_witness :
    loadsStub goodText = some goodNote ∧
    isNoteResponseShape goodNote = true ∧
    (promptFor [] = buildPrompt "" "General" "" ∧
      process_notes loadsStub "/app" (Json.obj []) (ProviderOutcome.success goodText) true t0 =
        HandlerResult.response ⟨200, goodNote⟩ [] ∧
      isNoteResponseShape goodNote = true) :=
  ⟨rfl, rfl, claim_C5 loadsStub "/app" [] goodText goodNote true t0 rfl rfl rfl rfl rfl⟩

/-- Claim C6: a provider text parsing to shape-valid JSON is returned
verbatim as the HTTP 200 body, with no field modified, added or removed. -/
theorem claim_C6 (jsonLoads : String → Option Json) (appDir : String)
    (reqBody : Json) (data : List (String × Json)) (text : String) (j : Json)
    (writeOk : Bool) (now : UtcTime)
    (hdata : getData reqBody = some data)
    (hparse : jsonLoads text = some j)
    (hshape : isNoteResponseShape j = true) :
    process_notes jsonLoads appDir reqBody (ProviderOutcome.success text) writeOk now =
      HandlerResult.response ⟨200, j⟩ [] := by
  simp [process_notes, hdata, hparse]

/-- Witness for C6 at a concrete shape-valid provider text. -/
theorem claim_C6_witness :
    getData (Json.obj []) = some [] ∧
    loadsStub goodText = some goodNote ∧
    isNoteResponseShape goodNote = true ∧
    process_notes loadsStub "/app" (Json.obj []) (ProviderOutcome.success goodText) true t0 =
      HandlerResult.response ⟨200, goodNote⟩ [] :=
  ⟨rfl, rfl, rfl, claim_C6 loadsStub "/app" (Json.obj []) [] goodText goodNote true t0 rfl rfl rfl⟩

/-- Claim C7: the fallback route serves the requested file when the path is
non-empty and exists under the static directory; otherwise it serves
`index.html` when that exists; otherwise it answers HTTP 200 with the
backend-running status JSON. -/
theorem claim_C7 (fsExists : String → Bool) (buildDir path : String) :
    (((path != "") && fsExists (joinPath buildDir path)) = true →
      serve_react fsExists buildDir path = StaticResult.sendFile buildDir path) ∧
    (((path != "") && fsExists (joinPath buildDir path)) = false →
      fsExists (joinPath buildDir "index.html") = true →
      serve_react fsExists buildDir path = StaticResult.sendFile buildDir "index.html") ∧
    (((path != "") && fsExists (joinPath buildDir path)) = false →
      fsExists (joinPath buildDir "index.html") = false →
      serve_react fsExists buildDir path =
        StaticResult.jsonStatus ⟨200, Json.obj [("status", Json.str "Backend running. Frontend build not found.")]⟩) :=
  ⟨fun h => by simp [serve_react, h],
    fun h h2 => by simp [serve_react, h, h2],
    fun h h2 => by simp [serve_react, h, h2]⟩

/-- Witness for C7 at the spec's example: no static build present, so
`GET /nonexistent/path` gets the status JSON. -/
theorem claim_C7_witness :
    serve_react (fun _ => false) "/frontend/build" "nonexistent/path" =
      StaticResult.jsonStatus ⟨200, Json.obj [("status", Json.str "Backend running. Frontend build not found.")]⟩ :=
  (claim_C7 (fun _ => false) "/frontend/build" "nonexistent/path").2.2 rfl rfl

/-- Claim C8: provider text that parses to valid JSON of the wrong shape is
still returned whole as the HTTP 200 body; the expandedNotes wrapping is
reserved for texts on which `json.loads` raises. -/
theorem claim_C8 (jsonLoads : String → Option Json) (appDir : String)
    (reqBody : Json) (data : List (String × Json)) (text : String) (j : Json)
    (writeOk : Bool) (now : UtcTime)
    (hdata : getData reqBody = some data)
    (hparse : jsonLoads text = some j)
    (hshape : isNoteResponseShape j = false) :
    process_notes jsonLoads appDir reqBody (ProviderOutcome.success text) writeOk now =
      HandlerResult.response ⟨200, j⟩ [] := by
  simp [process_notes, hdata, hparse]

/-- Witness for C8: the JSON array text `"[]"` passes through although it
is not NoteResponse-shaped. -/
theorem claim_C8_witness :
    loadsStub "[]" = some (Json.arr []) ∧
    isNoteResponseShape (Json.arr []) = false ∧
    process_notes loadsStub "/app" (Json.obj []) (ProviderOutcome.success "[]") true t0 =
      HandlerResult.response ⟨200, Json.arr []⟩ [] :=
  ⟨rfl, rfl, claim_C8 loadsStub "/app" (Json.obj []) [] "[]" (Json.arr []) true t0 rfl rfl rfl⟩

/-- Claim C9: a JSON `null` request body is handled exactly like the empty
object (all defaults apply), while a present `"tone": null` key is used
as-is, so the prompt interpolates Python's rendering of `None` rather than
`"General"`. -/
theorem claim_C9 (jsonLoads : String → Option Json) (appDir : String)
    (provider : ProviderOutcome) (writeOk : Bool) (now : UtcTime) :
    process_notes jsonLoads appDir Json.null provider writeOk now =
      process_notes jsonLoads appDir (Json.obj []) provider writeOk now ∧
    dictGet [("tone", Json.null)] "tone" (Json.str "General") = Json.null ∧
    promptFor [("tone", Json.null)] = buildPrompt "" "None" "" :=
  ⟨rfl, rfl, rfl⟩

/-- Claim C10: on the success path the response depends only on the
provider text — two requests with different bodies, write outcomes and
clock readings receive identical responses when the provider returns the
same text. -/
theorem claim_C10 (jsonLoads : String → Option Json) (appDir : String)
    (body1 body2 : Json) (data1 data2 : List (String × Json)) (text : String)
    (writeOk1 writeOk2 : Bool) (now1 now2 : UtcTime)
    (h1 : getData body1 = some data1) (h2 : getData body2 = some data2) :
    process_notes jsonLoads appDir body1 (ProviderOutcome.success text) writeOk1 now1 =
      process_notes jsonLoads appDir body2 (ProviderOutcome.success text) writeOk2 now2 := by
  simp [process_notes, h1, h2]

/-- Witness for C10: two requests differing in `notes` and `topic` get the
same response for the same provider text. -/
theorem claim_C10_witness :
    getData (Json.obj [("notes", Json.str "alpha")]) = some [("notes", Json.str "alpha")] ∧
    getData (Json.obj [("topic", Json.str "beta")]) = some [("topic", Json.str "beta")] ∧
    process_notes loadsStub "/app" (Json.obj [("notes", Json.str "alpha")]) (ProviderOutcome.success sureText) true t0 =
      process_notes loadsStub "/app" (Json.obj [("topic", Json.str "beta")]) (ProviderOutcome.success sureText) false t0 :=
  ⟨rfl, rfl,
    claim_C10 loadsStub "/app" (Json.obj [("notes", Json.str "alpha")]) (Json.obj [("topic", Json.str "beta")])
      [("notes", Json.str "alpha")] [("topic", Json.str "beta")] sureText true false t0 t0 rfl rfl⟩
